import Mathlib

/-!
Verification of the settings accumulator and shell resolver of the `just`
task runner fragment (`src/settings.rs`).

The accumulator `Settings.from_setting_iter` and the resolver
`Settings.resolve_shell` are translated directly from the Rust source.
The data types `StringLiteral`, `Shell`, `Setting` and `Config` are declared
outside the provided fragment; they are modelled from the specification,
with the `Setting` variant list fixed by the exhaustive match in
`from_setting_iter` and the `Config` fields fixed by the reads in `shell`.
-/

/-- Modelled from the spec: a string literal carrying its raw source form and
its escape-processed ("cooked") value; only the cooked value is used by the
resolver. The declaration of `StringLiteral` is outside the fragment. -/
structure StringLiteral where
  raw : String
  cooked : String
deriving Repr, DecidableEq

/-- Modelled from the spec: a shell spec — a command string literal plus an
ordered sequence of argument string literals. The declaration of `Shell` is
outside the fragment. -/
structure Shell where
  command : StringLiteral
  arguments : List StringLiteral
deriving Repr, DecidableEq

/-- Modelled from the spec: one parsed configuration directive. The closed
variant list is fixed by the exhaustive match in
`Settings::from_setting_iter`. The declaration of `Setting` is outside the
fragment. -/
inductive Setting where
  | AllowDuplicateRecipes (b : Bool)
  | DotenvLoad (b : Bool)
  | Export (b : Bool)
  | Fallback (b : Bool)
  | IgnoreComments (b : Bool)
  | PositionalArguments (b : Bool)
  | Shell (s : Shell)
  | WindowsPowerShell (b : Bool)
  | WindowsShell (s : Shell)
  | Tempdir (t : String)
deriving Repr, DecidableEq

/-- Modelled from the spec: the CLI-level runtime overrides read by the
resolver — an optional shell command and an optional argument list. The
declaration of `Config` is outside the fragment; `Settings::shell` reads only
these two fields. -/
structure Config where
  shell : Option String
  shell_args : Option (List String)
deriving Repr, DecidableEq

/-- `DEFAULT_SHELL` from `settings.rs`. -/
def DEFAULT_SHELL : String := "sh"

/-- `DEFAULT_SHELL_ARGS` from `settings.rs`. -/
def DEFAULT_SHELL_ARGS : List String := ["-cu"]

/-- `WINDOWS_POWERSHELL_SHELL` from `settings.rs`. -/
def WINDOWS_POWERSHELL_SHELL : String := "powershell.exe"

/-- `WINDOWS_POWERSHELL_ARGS` from `settings.rs`. -/
def WINDOWS_POWERSHELL_ARGS : List String := ["-NoLogo", "-Command"]

/-- The `Settings` struct from `settings.rs`, with the `Default` values of the
Rust derive (`false` for booleans, `none` for options) as field defaults. -/
structure Settings where
  allow_duplicate_recipes : Bool := false
  dotenv_load : Option Bool := none
  «export» : Bool := false
  fallback : Bool := false
  ignore_comments : Bool := false
  positional_arguments : Bool := false
  shell : Option Shell := none
  tempdir : Option String := none
  windows_powershell : Bool := false
  windows_shell : Option Shell := none
deriving Repr, DecidableEq

/-- One step of the accumulator loop body in `Settings::from_setting_iter`:
the match dispatching a single directive onto the settings record. -/
def applySetting (settings : Settings) (set : Setting) : Settings :=
  match set with
  | .AllowDuplicateRecipes allow_duplicate_recipes =>
      { settings with allow_duplicate_recipes := allow_duplicate_recipes }
  | .DotenvLoad dotenv_load => { settings with dotenv_load := some dotenv_load }
  | .Export e => { settings with «export» := e }
  | .Fallback fallback => { settings with fallback := fallback }
  | .IgnoreComments ignore_comments =>
      { settings with ignore_comments := ignore_comments }
  | .PositionalArguments positional_arguments =>
      { settings with positional_arguments := positional_arguments }
  | .Shell shell => { settings with shell := some shell }
  | .WindowsPowerShell windows_powershell =>
      { settings with windows_powershell := windows_powershell }
  | .WindowsShell windows_shell => { settings with windows_shell := some windows_shell }
  | .Tempdir tempdir => { settings with tempdir := some tempdir }

/-- `Settings::from_setting_iter`: fold the directive sequence, in order,
over the default settings record. -/
def Settings.from_setting_iter (iter : List Setting) : Settings :=
  iter.foldl applySetting {}

/-- `Settings::shell`: the shell resolver. `cfg!(windows)` is made an explicit
`windows : Bool` parameter, as the spec directs, so both platform values are
expressible. -/
def Settings.resolve_shell (self : Settings) (config : Config) (windows : Bool) :
    String × List String :=
  match config.shell, config.shell_args with
  | some shell, some shell_args => (shell, shell_args)
  | some shell, none => (shell, DEFAULT_SHELL_ARGS)
  | none, some shell_args => (DEFAULT_SHELL, shell_args)
  | none, none =>
    match windows, self.windows_shell with
    | true, some shell =>
        (shell.command.cooked, shell.arguments.map StringLiteral.cooked)
    | _, _ =>
      if windows && self.windows_powershell then
        (WINDOWS_POWERSHELL_SHELL, WINDOWS_POWERSHELL_ARGS)
      else
        match self.shell with
        | some shell =>
            (shell.command.cooked, shell.arguments.map StringLiteral.cooked)
        | none => (DEFAULT_SHELL, DEFAULT_SHELL_ARGS)

/-- C1: if both the runtime command override and the runtime arguments
override are present, resolution returns exactly the override command paired
with the override arguments, regardless of snapshot content and platform. -/
theorem resolve_shell_both_overrides (self : Settings) (config : Config)
    (windows : Bool) (cmd : String) (args : List String)
    (hc : config.shell = some cmd) (ha : config.shell_args = some args) :
    self.resolve_shell config windows = (cmd, args) := by
  simp [Settings.resolve_shell, hc, ha]

/-- Witness for C1 at a concrete input. -/
theorem resolve_shell_both_overrides_witness :
    Settings.resolve_shell {} ⟨some "lol", some ["-nice"]⟩ false = ("lol", ["-nice"]) :=
  resolve_shell_both_overrides {} ⟨some "lol", some ["-nice"]⟩ false "lol" ["-nice"] rfl rfl

/-- C2: if only the runtime command override is present, resolution returns
the override command paired with the built-in default arguments `["-cu"]`,
for every snapshot and platform flag. -/
theorem resolve_shell_command_override_only (self : Settings) (config : Config)
    (windows : Bool) (cmd : String)
    (hc : config.shell = some cmd) (ha : config.shell_args = none) :
    self.resolve_shell config windows = (cmd, ["-cu"]) := by
  simp [Settings.resolve_shell, hc, ha, DEFAULT_SHELL_ARGS]

/-- Witness for C2 at a concrete input: the snapshot declares both a generic
shell spec with other arguments and the PowerShell flag, yet the result is the
override command with the default arguments. -/
theorem resolve_shell_command_override_only_witness :
    Settings.resolve_shell
      { shell := some ⟨⟨"zsh", "zsh"⟩, [⟨"-x", "-x"⟩]⟩, windows_powershell := true }
      ⟨some "lol", none⟩ true = ("lol", ["-cu"]) :=
  resolve_shell_command_override_only
    { shell := some ⟨⟨"zsh", "zsh"⟩, [⟨"-x", "-x"⟩]⟩, windows_powershell := true }
    ⟨some "lol", none⟩ true "lol" rfl rfl

/-- C3: if only the runtime arguments override is present, resolution returns
the built-in default command `"sh"` paired with the override arguments, for
every snapshot and platform flag. -/
theorem resolve_shell_args_override_only (self : Settings) (config : Config)
    (windows : Bool) (args : List String)
    (hc : config.shell = none) (ha : config.shell_args = some args) :
    self.resolve_shell config windows = ("sh", args) := by
  simp [Settings.resolve_shell, hc, ha, DEFAULT_SHELL]

/-- Witness for C3 at a concrete input: the snapshot declares a generic shell
command, yet the result command is the built-in default. -/
theorem resolve_shell_args_override_only_witness :
    Settings.resolve_shell
      { shell := some ⟨⟨"zsh", "zsh"⟩, []⟩ }
      ⟨none, some ["-nice"]⟩ false = ("sh", ["-nice"]) :=
  resolve_shell_args_override_only
    { shell := some ⟨⟨"zsh", "zsh"⟩, []⟩ }
    ⟨none, some ["-nice"]⟩ false ["-nice"] rfl rfl

/-- C4: with both runtime overrides absent, on the Windows platform, a present
Windows-specific shell spec wins: resolution returns its cooked command and
cooked arguments, regardless of the PowerShell flag and of any generic shell
spec in the snapshot. -/
theorem resolve_shell_windows_shell_wins (self : Settings) (config : Config)
    (ws : Shell)
    (hc : config.shell = none) (ha : config.shell_args = none)
    (hw : self.windows_shell = some ws) :
    self.resolve_shell config true
      = (ws.command.cooked, ws.arguments.map StringLiteral.cooked) := by
  simp [Settings.resolve_shell, hc, ha, hw]

/-- Witness for C4 at a concrete input: the PowerShell flag is set and a
generic shell spec is present, yet the Windows-specific spec wins. -/
theorem resolve_shell_windows_shell_wins_witness :
    Settings.resolve_shell
      { shell := some ⟨⟨"zsh", "zsh"⟩, []⟩,
        windows_powershell := true,
        windows_shell := some ⟨⟨"cmd.exe", "cmd.exe"⟩, [⟨"/c", "/c"⟩]⟩ }
      ⟨none, none⟩ true = ("cmd.exe", ["/c"]) :=
  resolve_shell_windows_shell_wins
    { shell := some ⟨⟨"zsh", "zsh"⟩, []⟩,
      windows_powershell := true,
      windows_shell := some ⟨⟨"cmd.exe", "cmd.exe"⟩, [⟨"/c", "/c"⟩]⟩ }
    ⟨none, none⟩ ⟨⟨"cmd.exe", "cmd.exe"⟩, [⟨"/c", "/c"⟩]⟩ rfl rfl rfl

/-- C5: with both runtime overrides absent, on the Windows platform, with no
Windows-specific shell spec and the PowerShell flag set, resolution returns
exactly `("powershell.exe", ["-NoLogo", "-Command"])`, regardless of any
generic shell spec. -/
theorem resolve_shell_windows_powershell (self : Settings) (config : Config)
    (hc : config.shell = none) (ha : config.shell_args = none)
    (hw : self.windows_shell = none) (hp : self.windows_powershell = true) :
    self.resolve_shell config true = ("powershell.exe", ["-NoLogo", "-Command"]) := by
  simp [Settings.resolve_shell, hc, ha, hw, hp,
    WINDOWS_POWERSHELL_SHELL, WINDOWS_POWERSHELL_ARGS]

/-- Witness for C5 at a concrete input: a generic shell spec is present but
the PowerShell fallback still wins on Windows. -/
theorem resolve_shell_windows_powershell_witness :
    Settings.resolve_shell
      { shell := some ⟨⟨"zsh", "zsh"⟩, []⟩, windows_powershell := true }
      ⟨none, none⟩ true = ("powershell.exe", ["-NoLogo", "-Command"]) :=
  resolve_shell_windows_powershell
    { shell := some ⟨⟨"zsh", "zsh"⟩, []⟩, windows_powershell := true }
    ⟨none, none⟩ rfl rfl rfl rfl

/-- C6: with both runtime overrides absent, a present generic shell spec wins
whenever no Windows-specific case applies (non-Windows platform, or Windows
with neither a Windows shell spec nor the PowerShell flag): resolution
returns its cooked command and cooked arguments. -/
theorem resolve_shell_generic_shell (self : Settings) (config : Config)
    (windows : Bool) (sp : Shell)
    (hc : config.shell = none) (ha : config.shell_args = none)
    (hs : self.shell = some sp)
    (hnw : windows = true → self.windows_shell = none ∧ self.windows_powershell = false) :
    self.resolve_shell config windows
      = (sp.command.cooked, sp.arguments.map StringLiteral.cooked) := by
  cases windows with
  | false =>
    cases hws : self.windows_shell <;>
      simp [Settings.resolve_shell, hc, ha, hs, hws]
  | true =>
    obtain ⟨hws, hp⟩ := hnw rfl
    simp [Settings.resolve_shell, hc, ha, hs, hws, hp]

/-- Witness for C6 at a concrete input: non-Windows platform, generic shell
spec beats the built-in default even with the PowerShell flag set. -/
theorem resolve_shell_generic_shell_witness :
    Settings.resolve_shell
      { shell := some ⟨⟨"asdf.exe", "asdf.exe"⟩, [⟨"-nope", "-nope"⟩]⟩,
        windows_powershell := true }
      ⟨none, none⟩ false = ("asdf.exe", ["-nope"]) :=
  resolve_shell_generic_shell
    { shell := some ⟨⟨"asdf.exe", "asdf.exe"⟩, [⟨"-nope", "-nope"⟩]⟩,
      windows_powershell := true }
    ⟨none, none⟩ false ⟨⟨"asdf.exe", "asdf.exe"⟩, [⟨"-nope", "-nope"⟩]⟩
    rfl rfl rfl (fun h => nomatch h)

/-- C7: with both runtime overrides absent, no generic shell spec, and no
Windows-specific case applying, resolution returns the terminal fallback
`("sh", ["-cu"])`; in particular an empty snapshot on a non-Windows platform,
and a snapshot whose only non-default field is `windows_powershell = true` on
a non-Windows platform, both yield `("sh", ["-cu"])`. -/
theorem resolve_shell_terminal_fallback (self : Settings) (config : Config)
    (windows : Bool)
    (hc : config.shell = none) (ha : config.shell_args = none)
    (hs : self.shell = none)
    (hnw : windows = true → self.windows_shell = none ∧ self.windows_powershell = false) :
    self.resolve_shell config windows = ("sh", ["-cu"])
      ∧ Settings.resolve_shell {} ⟨none, none⟩ false = ("sh", ["-cu"])
      ∧ Settings.resolve_shell { windows_powershell := true } ⟨none, none⟩ false
          = ("sh", ["-cu"]) := by
  refine ⟨?_, rfl, rfl⟩
  cases windows with
  | false =>
    cases hws : self.windows_shell <;>
      simp [Settings.resolve_shell, hc, ha, hs, hws, DEFAULT_SHELL, DEFAULT_SHELL_ARGS]
  | true =>
    obtain ⟨hws, hp⟩ := hnw rfl
    simp [Settings.resolve_shell, hc, ha, hs, hws, hp, DEFAULT_SHELL, DEFAULT_SHELL_ARGS]

/-- Witness for C7 at a concrete input: the `windows_powershell = true`
snapshot on a non-Windows platform. -/
theorem resolve_shell_terminal_fallback_witness :
    Settings.resolve_shell { windows_powershell := true } ⟨none, none⟩ false
        = ("sh", ["-cu"])
      ∧ Settings.resolve_shell {} ⟨none, none⟩ false = ("sh", ["-cu"]) :=
  ⟨(resolve_shell_terminal_fallback { windows_powershell := true } ⟨none, none⟩ false
      rfl rfl rfl (fun h => nomatch h)).1,
   (resolve_shell_terminal_fallback { windows_powershell := true } ⟨none, none⟩ false
      rfl rfl rfl (fun h => nomatch h)).2.1⟩

/-- C8: shell resolution is a pure, total, deterministic function of the
snapshot, the overrides and the platform flag: identical inputs yield
identical results, and every input yields a concrete `(command, arguments)`
pair — there is no error path. -/
theorem resolve_shell_pure_total :
    (∀ (s₁ s₂ : Settings) (c₁ c₂ : Config) (w₁ w₂ : Bool),
      s₁ = s₂ → c₁ = c₂ → w₁ = w₂ →
        s₁.resolve_shell c₁ w₁ = s₂.resolve_shell c₂ w₂)
    ∧ (∀ (s : Settings) (c : Config) (w : Bool),
        ∃ (cmd : String) (args : List String), s.resolve_shell c w = (cmd, args)) := by
  constructor
  · intro s₁ s₂ c₁ c₂ w₁ w₂ hs hc hw
    rw [hs, hc, hw]
  · intro s c w
    exact ⟨(s.resolve_shell c w).1, (s.resolve_shell c w).2, rfl⟩

/-- Witness for C8 at a concrete input. -/
theorem resolve_shell_pure_total_witness :
    Settings.resolve_shell {} ⟨none, none⟩ false
        = Settings.resolve_shell {} ⟨none, none⟩ false
      ∧ ∃ (cmd : String) (args : List String),
          Settings.resolve_shell {} ⟨none, none⟩ false = (cmd, args) :=
  ⟨resolve_shell_pure_total.1 {} {} ⟨none, none⟩ ⟨none, none⟩ false false rfl rfl rfl,
   resolve_shell_pure_total.2 {} ⟨none, none⟩ false⟩

/-- Spec-side description of one field's update behaviour: `u set` is `some v`
when the directive `set` writes value `v` into the field and `none` when it
leaves the field alone. -/
def lastUpdate {β : Type} (u : Setting → Option β) (d : β) (l : List Setting) : β :=
  ((l.filterMap u).getLast?).getD d

theorem foldl_field_lastUpdate {β : Type} (g : Settings → β) (u : Setting → Option β)
    (hstep : ∀ s set, g (applySetting s set) = (u set).getD (g s)) :
    ∀ (l : List Setting) (s : Settings),
      g (l.foldl applySetting s) = lastUpdate u (g s) l := by
  intro l
  induction l with
  | nil => intro s; rfl
  | cons a t ih =>
    intro s
    show g (t.foldl applySetting (applySetting s a)) = lastUpdate u (g s) (a :: t)
    rw [ih, hstep]
    unfold lastUpdate
    cases hu : u a with
    | none => simp [List.filterMap_cons, hu]
    | some b =>
      simp only [List.filterMap_cons, hu, Option.getD_some]
      cases hft : t.filterMap u with
      | nil => simp
      | cons c cs =>
        rw [List.getLast?_cons_cons]
        cases h2 : (c :: cs).getLast? with
        | none => exact absurd h2 (by simp)
        | some y => rfl

def upd_allow_duplicate_recipes : Setting → Option Bool
  | .AllowDuplicateRecipes b => some b
  | _ => none

def upd_dotenv_load : Setting → Option (Option Bool)
  | .DotenvLoad b => some (some b)
  | _ => none

def upd_export : Setting → Option Bool
  | .Export b => some b
  | _ => none

def upd_fallback : Setting → Option Bool
  | .Fallback b => some b
  | _ => none

def upd_ignore_comments : Setting → Option Bool
  | .IgnoreComments b => some b
  | _ => none

def upd_positional_arguments : Setting → Option Bool
  | .PositionalArguments b => some b
  | _ => none

def upd_shell : Setting → Option (Option Shell)
  | .Shell s => some (some s)
  | _ => none

def upd_windows_powershell : Setting → Option Bool
  | .WindowsPowerShell b => some b
  | _ => none

def upd_windows_shell : Setting → Option (Option Shell)
  | .WindowsShell s => some (some s)
  | _ => none

def upd_tempdir : Setting → Option (Option String)
  | .Tempdir t => some (some t)
  | _ => none

/-- C9: for every finite directive sequence, each field of the accumulated
snapshot equals the payload written by the last directive of that kind in
sequence order (options fully replaced per directive, booleans last-value
wins), and a field with no directive of its kind keeps its default
(`false`/`none`). -/
theorem from_setting_iter_last_wins (l : List Setting) :
    (Settings.from_setting_iter l).allow_duplicate_recipes
        = lastUpdate upd_allow_duplicate_recipes false l
      ∧ (Settings.from_setting_iter l).dotenv_load = lastUpdate upd_dotenv_load none l
      ∧ (Settings.from_setting_iter l).«export» = lastUpdate upd_export false l
      ∧ (Settings.from_setting_iter l).fallback = lastUpdate upd_fallback false l
      ∧ (Settings.from_setting_iter l).ignore_comments
        = lastUpdate upd_ignore_comments false l
      ∧ (Settings.from_setting_iter l).positional_arguments
        = lastUpdate upd_positional_arguments false l
      ∧ (Settings.from_setting_iter l).shell = lastUpdate upd_shell none l
      ∧ (Settings.from_setting_iter l).windows_powershell
        = lastUpdate upd_windows_powershell false l
      ∧ (Settings.from_setting_iter l).windows_shell = lastUpdate upd_windows_shell none l
      ∧ (Settings.from_setting_iter l).tempdir = lastUpdate upd_tempdir none l := by
  refine ⟨?_, ?_, ?_, ?_, ?_, ?_, ?_, ?_, ?_, ?_⟩
  · exact foldl_field_lastUpdate Settings.allow_duplicate_recipes
      upd_allow_duplicate_recipes (by intro s set; cases set <;> rfl) l {}
  · exact foldl_field_lastUpdate Settings.dotenv_load
      upd_dotenv_load (by intro s set; cases set <;> rfl) l {}
  · exact foldl_field_lastUpdate Settings.export
      upd_export (by intro s set; cases set <;> rfl) l {}
  · exact foldl_field_lastUpdate Settings.fallback
      upd_fallback (by intro s set; cases set <;> rfl) l {}
  · exact foldl_field_lastUpdate Settings.ignore_comments
      upd_ignore_comments (by intro s set; cases set <;> rfl) l {}
  · exact foldl_field_lastUpdate Settings.positional_arguments
      upd_positional_arguments (by intro s set; cases set <;> rfl) l {}
  · exact foldl_field_lastUpdate Settings.shell
      upd_shell (by intro s set; cases set <;> rfl) l {}
  · exact foldl_field_lastUpdate Settings.windows_powershell
      upd_windows_powershell (by intro s set; cases set <;> rfl) l {}
  · exact foldl_field_lastUpdate Settings.windows_shell
      upd_windows_shell (by intro s set; cases set <;> rfl) l {}
  · exact foldl_field_lastUpdate Settings.tempdir
      upd_tempdir (by intro s set; cases set <;> rfl) l {}

/-- C10: processing a single directive updates exactly the one snapshot field
matching the directive's kind and leaves every other field unchanged — each
step is precisely a one-field record update of the incoming snapshot. -/
theorem applySetting_frame (s : Settings) :
    (∀ b, applySetting s (.AllowDuplicateRecipes b)
        = { s with allow_duplicate_recipes := b })
      ∧ (∀ b, applySetting s (.DotenvLoad b) = { s with dotenv_load := some b })
      ∧ (∀ b, applySetting s (.Export b) = { s with «export» := b })
      ∧ (∀ b, applySetting s (.Fallback b) = { s with fallback := b })
      ∧ (∀ b, applySetting s (.IgnoreComments b) = { s with ignore_comments := b })
      ∧ (∀ b, applySetting s (.PositionalArguments b)
        = { s with positional_arguments := b })
      ∧ (∀ sp, applySetting s (.Shell sp) = { s with shell := some sp })
      ∧ (∀ b, applySetting s (.WindowsPowerShell b) = { s with windows_powershell := b })
      ∧ (∀ sp, applySetting s (.WindowsShell sp) = { s with windows_shell := some sp })
      ∧ (∀ t, applySetting s (.Tempdir t) = { s with tempdir := some t }) :=
  ⟨fun _ => rfl, fun _ => rfl, fun _ => rfl, fun _ => rfl, fun _ => rfl,
   fun _ => rfl, fun _ => rfl, fun _ => rfl, fun _ => rfl, fun _ => rfl⟩
